import Mathlib

/-!
Verification of the `lock` repository: a filesystem-directory mutual-exclusion
protocol.  The development shallowly embeds the Go sources (`entry.go`,
`util.go`) into Lean: strings stay strings, the Go standard-library string and
path helpers the code calls are modelled right below, stateful code threads the
directory listing (the only shared state) explicitly, and the external effects
the protocol consumes (clock, hostname, uuid generation, file-operation
failures) are supplied by an explicit environment record.
-/

namespace Lock

/-! ## Go standard-library string helpers used by the source -/

/-- Core of `strings.Split`: fuel-indexed scanner over the character list.
`fuel` bounds the number of characters consumed; calls always supply the full
string length, so fuel never runs out on real inputs. -/
def goSplitAux (sep : List Char) : Nat → List Char → List Char → List (List Char)
  | 0, acc, _ => [acc.reverse]
  | _ + 1, acc, [] => [acc.reverse]
  | fuel + 1, acc, c :: rest =>
    if sep.isPrefixOf (c :: rest) then
      acc.reverse :: goSplitAux sep fuel [] (List.drop sep.length (c :: rest))
    else
      goSplitAux sep fuel (c :: acc) rest

/-- `strings.Split(s, sep)` for a non-empty separator (the source only splits on
`"__"`). -/
def goSplit (s sep : String) : List String :=
  (goSplitAux sep.data s.data.length [] s.data).map String.mk

/-- Core of `strings.Replace(s, old, new, -1)`: fuel-indexed scanner. -/
def goReplaceAux (old new : List Char) : Nat → List Char → List Char
  | 0, s => s
  | _ + 1, [] => []
  | fuel + 1, c :: rest =>
    if old.isPrefixOf (c :: rest) then
      new ++ goReplaceAux old new fuel (List.drop old.length (c :: rest))
    else
      c :: goReplaceAux old new fuel rest

/-- `strings.Replace(s, old, new, -1)` (= `strings.ReplaceAll`) for a non-empty
`old` (the source replaces `"/"`, `"-"` and `".<ext>"` patterns). -/
def goReplace (s old new : String) : String :=
  ⟨goReplaceAux old.data new.data s.data.length s.data⟩

/-- Core of `strings.Contains`: does `sub` occur as a contiguous substring? -/
def containsAux (sub : List Char) : List Char → Bool
  | [] => sub.isEmpty
  | c :: rest => sub.isPrefixOf (c :: rest) || containsAux sub rest

/-- `strings.Contains(s, sub)`. -/
def containsStr (s sub : String) : Bool :=
  containsAux sub.data s.data

/-- Decimal-digit accumulator for `strconv.Atoi`. Returns `none` as soon as a
non-digit is met (Go reports a syntax error there). -/
def digitsValAux : List Char → Nat → Option Nat
  | [], acc => some acc
  | c :: rest, acc =>
    if c.isDigit then digitsValAux rest (10 * acc + (c.toNat - '0'.toNat)) else none

/-- `strconv.Atoi(s)` with the error discarded, exactly as `entry.created` does:
Go returns value 0 together with the (ignored) error whenever `s` is not a
syntactically valid decimal integer.  The 64-bit range clamping of Go's
`ParseInt` is not modelled: the timestamps the claims evaluate are far below
the bound. -/
def goAtoi (s : String) : Int :=
  match s.data with
  | [] => 0
  | '+' :: rest =>
    if rest.isEmpty then 0 else
      match digitsValAux rest 0 with
      | some v => (v : Int)
      | none => 0
  | '-' :: rest =>
    if rest.isEmpty then 0 else
      match digitsValAux rest 0 with
      | some v => -(v : Int)
      | none => 0
  | l =>
    match digitsValAux l 0 with
    | some v => (v : Int)
    | none => 0

/-! ## Go `path/filepath` helpers used by the source -/

/-- `filepath.Base(path)` for the non-empty, no-trailing-slash paths the
program builds: the characters after the last path separator. -/
def filepathBase (p : String) : String :=
  ⟨(p.data.reverse.takeWhile (fun c => c ≠ '/')).reverse⟩

/-- `filepath.Ext(path)`: the suffix beginning at the final dot in the final
element of the path; empty when that element has no dot.  Note the result
contains the dot itself (`".request"`, `".lock"`). -/
def filepathExt (p : String) : String :=
  let base := (filepathBase p).data
  let afterDot := base.reverse.takeWhile (fun c => c ≠ '.')
  if afterDot.length = base.length then "" else ⟨'.' :: afterDot.reverse⟩

/-- `filepath.Join(dir, name)` for the shapes the program produces (a clean
directory and a clean relative file name, where Go's trailing `Clean` is a
no-op). -/
def filepathJoin (d b : String) : String :=
  if d = "" then b else d ++ "/" ++ b

/-! ## The entry model (`entry.go`) -/

/-- File type constants from `entry.go`. -/
def requestFileType : String := ".request"

def lockFileType : String := ".lock"

/-- `entry`: a file representing a lock or lock-request item; the path encodes
all identity. -/
structure entry where
  path : String
deriving DecidableEq, Repr

/-- `entry.filetype()` = `filepath.Ext(e.path)`. -/
def entry.filetype (e : entry) : String :=
  filepathExt e.path

/-- `entry.base()` = `filepath.Base(e.path)`. -/
def entry.base (e : entry) : String :=
  filepathBase e.path

/-- `entry.fields()`: strips `fmt.Sprintf(".%s", e.filetype())` from the base
name and splits on `"__"`.  Since `filetype()` already contains the leading
dot, the stripped pattern is `"..request"` / `"..lock"`, exactly as in the
source. -/
def entry.fields (e : entry) : List String :=
  let nm := goReplace e.base ("." ++ e.filetype) ""
  goSplit nm "__"

/-- `entry.name()` = `fields()[0]`. Go panics when the filename has fewer than
one field (impossible: `Split` always returns a non-empty list); the model
defaults to `""`. -/
def entry.name (e : entry) : String :=
  e.fields.getD 0 ""

/-- `entry.node()` = `fields()[1]`.  Go panics on malformed (under-three-field)
filenames; the model returns `""` there, and every entry the claims evaluate is
well-formed. -/
def entry.node (e : entry) : String :=
  e.fields.getD 1 ""

/-- `entry.ID()` = `fields()[2]`. -/
def entry.ID (e : entry) : String :=
  e.fields.getD 2 ""

/-- `entry.created()` = `strconv.Atoi(fields()[3])` with the error ignored. -/
def entry.created (e : entry) : Int :=
  goAtoi (e.fields.getD 3 "")

/-- `entry.hasName(name)`. -/
def entry.hasName (e : entry) (name : String) : Bool :=
  e.name == name

/-- `entry.hasNode(name)`. -/
def entry.hasNode (e : entry) (name : String) : Bool :=
  e.node == name

/-! ## Collections of entries (`entries` in `entry.go`) -/

/-- `_entries(dir)`: the glob of the directory turned into entries.  The model
takes the directory listing (list of paths) as input; the protocol model below
threads that listing as its state. -/
def entriesOf (listing : List String) : List entry :=
  listing.map (fun p => ⟨p⟩)

/-- `entries.withFiletype(ft)`: keep the entries whose `filetype()` is `ft`. -/
def withFiletype (es : List entry) (ft : String) : List entry :=
  es.filter (fun ee => ee.filetype == ft)

/-- `entries.match(ee)` (named `matchEntries` because `match` is reserved
here): every entry with a different path that shares the argument's node or
name. -/
def matchEntries (es : List entry) (ee : entry) : List entry :=
  es.filter (fun item => !(item.path == ee.path) && (item.hasNode ee.node || item.hasName ee.name))

/-- `entries.oldest()`: Go sorts (unstably) by ascending `created()` and takes
the front; on distinct keys that is the unique minimum.  The model returns the
first entry of minimal `created`, a fixed choice within the unspecified
tie-break; every use below either evaluates on distinct keys or only inspects
the result's `path` against a path that no candidate carries. -/
def oldest : List entry → Option entry
  | [] => none
  | e :: es => some (es.foldl (fun best x => if x.created < best.created then x else best) e)

/-- `entry.IsOldest()`: reads the directory (here: the supplied listing of
`e.dir()`), keeps the same-filetype entries, matches them against `e`, and
returns `len(found) == 0 || found.oldest().path == e.path`. -/
def entry.IsOldest (e : entry) (listing : List String) : Bool :=
  let vals := withFiletype (entriesOf listing) e.filetype
  let found := matchEntries vals e
  found.isEmpty ||
    (match oldest found with
     | some o => o.path == e.path
     | none => false)

/-- `requests(dir)`. -/
def requests (listing : List String) : List entry :=
  withFiletype (entriesOf listing) requestFileType

/-- `locks(dir)`. -/
def locks (listing : List String) : List entry :=
  withFiletype (entriesOf listing) lockFileType

/-! ## Path encoding (`createEntryPath`) -/

/-- `createEntryPath(dir, name, filetype)`: the uuid (dash-stripped), node name
and epoch are parameters here because the source obtains them from external
services (`newUUID`, `currentNode`, `currentEpoch`).  Mirrors
`fmt.Sprintf("%s__%s__%s__%d%s", strings.Replace(name, "/", "_", -1), node,
uuid, epoch, filetype)` joined onto `dir`. -/
def createEntryPath (dir name filetype node uuid : String) (epoch : Int) : String :=
  let uuid := goReplace uuid "-" ""
  let base :=
    goReplace name "/" "_" ++ "__" ++ node ++ "__" ++ uuid ++ "__" ++ toString epoch ++ filetype
  filepathJoin dir base

/-! ## Configuration (`entry.go` constants and `Configuration`) -/

/-- Default time in seconds to wait between each attempt to acquire the lock. -/
def DefaultPollTime : Int := 30

/-- Default maximum time in seconds to wait to acquire the lock. -/
def DefaultMaxWait : Int := 3600

/-- Default name for lock files. -/
def DefaultName : String := "default_lock"

/-- `Configuration` from `entry.go`. -/
structure Configuration where
  Dir : String
  Name : String
  PollInterval : Int
  MaxWait : Int
deriving DecidableEq, Repr

/-- `DefaultConfig()`.  `DefaultDir` is `os.UserHomeDir()`, an external value,
so it is a parameter. -/
def DefaultConfig (defaultDir : String) : Configuration :=
  { Dir := defaultDir, Name := DefaultName, PollInterval := DefaultPollTime,
    MaxWait := DefaultMaxWait }

/-- The initial value of the package-level mutable `config` variable:
`config = DefaultConfig()`. -/
def initialConfig (defaultDir : String) : Configuration :=
  DefaultConfig defaultDir

/-! ## Errors (`entry.go` error values) -/

/-- Go error values the protocol produces.  `ExistsErr` and `TooManyLocksErr`
are the named error types of `entry.go`; every other error (the results of
`fmt.Errorf` and of the OS file operations) is carried as its message. -/
inductive GoErr where
  | ExistsErr (msg : String)
  | TooManyLocksErr (msg : String)
  | Errorf (msg : String)
deriving DecidableEq, Repr

/-! ## The protocol environment

The protocol's externals: the clock (`timedOut`'s successive answers), the
host name, the uuid service, and the possible failures of the file operations.
The directory listing itself is threaded through the model as explicit state
(`fs`), and no concurrent actor mutates it: pre-existing locks or requests are
initial `fs` contents and persist unless the protocol removes them. -/
structure Env where
  /-- `currentNode()`. -/
  node : String
  /-- `newUUID()` for the request entry ( dash-containing raw uuid, or error). -/
  reqUuid : Except String String
  /-- `currentEpoch()` for the request entry. -/
  reqEpoch : Int
  /-- `newUUID()` for the k-th lock-creation attempt. -/
  lockUuids : Nat → Except String String
  /-- `currentEpoch()` for the k-th lock-creation attempt. -/
  lockEpochs : Nat → Int
  /-- Failure of `createDir` (os.MkdirAll), if any. -/
  mkdirErr : Option String
  /-- Failure of the request-file write, if any. -/
  reqWriteErr : Option String
  /-- Failure of the k-th lock-file write, if any. -/
  lockWriteErrs : Nat → Option String
  /-- The successive results of the `isTimeOut()` closure: `timedOut` compares
  wall-clock elapsed time with `MaxWait`, so each call's Boolean answer is
  environment data; one shared sequence serves both loops because the source
  creates a single closure before the first loop. -/
  timeouts : Nat → Bool
  /-- Failure of `req.Remove()`, if any (called at most once per run). -/
  removeErr : Option String

/-- `os.Remove` on success: the path disappears from the directory listing. -/
def removeFile (fs : List String) (p : String) : List String :=
  fs.erase p

/-! ## `createRequest` and `create` -/

/-- `createRequest()`: builds the request path from the active configuration
and writes the (empty) file. -/
def createRequest (cfg : Configuration) (env : Env) (fs : List String) :
    Except GoErr (entry × List String) :=
  match env.reqUuid with
  | .error m => .error (.Errorf ("failed to generate UUID: " ++ m))
  | .ok uuid =>
    let path := createEntryPath cfg.Dir cfg.Name requestFileType env.node uuid env.reqEpoch
    match env.reqWriteErr with
    | some m => .error (.Errorf ("failed to create request " ++ path ++ ": " ++ m))
    | none => .ok (⟨path⟩, fs ++ [path])

/-- `create()` (the lock-file creation attempt, attempt index `k`): counts the
`.lock` entries in the directory; 0 means write the lock file, 1 or 2 yield
`ExistsErr`, more than 2 yield `TooManyLocksErr`. -/
def create (cfg : Configuration) (env : Env) (k : Nat) (fs : List String) :
    Except GoErr (entry × List String) :=
  match env.lockUuids k with
  | .error m => .error (.Errorf ("failed to generate UUID: " ++ m))
  | .ok uuid =>
    let path := createEntryPath cfg.Dir cfg.Name lockFileType env.node uuid (env.lockEpochs k)
    let n := (locks fs).length
    if n = 0 then
      match env.lockWriteErrs k with
      | some m => .error (.Errorf ("failed to create request " ++ path ++ ": " ++ m))
      | none => .ok (⟨path⟩, fs ++ [path])
    else if n ≤ 2 then .error (.ExistsErr (toString n ++ " lock(s) already exist"))
    else .error (.TooManyLocksErr (toString n ++ " locks found, expect <= 2"))

/-! ## The `Acquire` state machine -/

/-- Observable events of a run, for stating how the loops pace themselves. -/
inductive Ev where
  /-- `time.Sleep(PollInterval seconds)`. -/
  | slept (secs : Int)
  /-- The k-th call of `create()`. -/
  | attempted (k : Nat)
deriving DecidableEq, Repr

/-- The value `Acquire` returns, Go's `(*entry, error)` pair, together with the
final directory listing and the event trace. -/
structure Outcome where
  lck : Option entry
  err : Option GoErr
  fs : List String
  trace : List Ev
deriving DecidableEq, Repr

/-- Result of the queue-wait loop: either an early `return` (with the Go
result and the listing after the removal attempt) or fall-through to the lock
phase carrying the next index into the shared `timeouts` sequence. -/
inductive WaitRes where
  | ret (res : Option entry × Option GoErr) (fs : List String)
  | proceed (t : Nat)
deriving DecidableEq, Repr

/-- The first loop of `Acquire`:
`for !req.IsOldest() { if isTimeOut() { ... return nil, errors.New(msg) };
time.Sleep(PollInterval) }`.  On the timeout branch the source first formats
the timeout message, then — when `req.Remove()` fails — REPLACES `msg` by the
cleanup-failure message (plain `msg =`, not an append).  `fuel` bounds the
iterations; `none` means fuel ran out before the loop resolved. -/
def waitLoop (cfg : Configuration) (req : entry) (env : Env) :
    Nat → Nat → List String → Option (WaitRes × List Ev)
  | 0, _, _ => none
  | fuel + 1, t, fs =>
    if req.IsOldest fs then some (.proceed t, [])
    else if env.timeouts t then
      match env.removeErr with
      | none =>
        some (.ret (none, some (.Errorf
          ("Timed out (" ++ toString cfg.MaxWait ++ "s) waiting to acquire lock")))
          (removeFile fs req.path), [])
      | some rmErr =>
        some (.ret (none, some (.Errorf
          (" (also failed to remove request " ++ req.path ++ ": " ++ rmErr ++
            " - please remove manually)"))) fs, [])
    else
      (waitLoop cfg req env fuel (t + 1) fs).map
        (fun r => (r.1, Ev.slept cfg.PollInterval :: r.2))

/-- The second loop of `Acquire`:
`for !isTimeOut() { lck, err = create(); switch err.(type) { case nil: return
lck, req.Remove(); case ExistsErr: ; default: ...; return nil, err } }` followed
by `return lck, nil`.  Go declares `type ExistsErr error`: an interface type
whose method set is exactly `error`'s, and in a type switch an interface-typed
case matches whenever the dynamic value implements it — which every non-nil
error does.  `case ExistsErr` therefore captures EVERY non-nil result of
`create()` (`TooManyLocksErr`, uuid failures and write failures included) and
the `default` arm — which would combine the creation error with a failed
request removal and return — is dead code, so the model's error branch always
retries.  The carried `lck` is whatever the last `create()` returned (always
`nil` after an error), and the loop body contains no `time.Sleep`.  `t`
continues the shared `timeouts` sequence, `k` counts the creation attempts. -/
def lockLoop (cfg : Configuration) (req : entry) (env : Env) :
    Nat → Nat → Nat → Option entry → List String → Option Outcome
  | 0, _, _, _, _ => none
  | fuel + 1, t, k, lck, fs =>
    if env.timeouts t then some ⟨lck, none, fs, []⟩
    else
      match create cfg env k fs with
      | .ok (l, fs') =>
        match env.removeErr with
        | none => some ⟨some l, none, removeFile fs' req.path, [.attempted k]⟩
        | some rmErr => some ⟨some l, some (.Errorf rmErr), fs', [.attempted k]⟩
      | .error _ =>
        (lockLoop cfg req env fuel (t + 1) (k + 1) none fs).map
          (fun o => { o with trace := Ev.attempted k :: o.trace })

/-- The body of `Acquire` once the active configuration is resolved: create the
directory, create the request entry, run the queue-wait loop, then the
lock-attempt loop. -/
def AcquireRun (cfg : Configuration) (env : Env) (fs : List String) (fuel : Nat) :
    Option Outcome :=
  match env.mkdirErr with
  | some m =>
    some ⟨none, some (.Errorf ("unable to create lock dir " ++ cfg.Dir ++ ": " ++ m)), fs, []⟩
  | none =>
    match createRequest cfg env fs with
    | .error e => some ⟨none, some e, fs, []⟩
    | .ok (req, fs₁) =>
      match waitLoop cfg req env fuel 0 fs₁ with
      | none => none
      | some (.ret (l, e) fs₂, evs) => some ⟨l, e, fs₂, evs⟩
      | some (.proceed t, evs) =>
        (lockLoop cfg req env fuel t 0 none fs₁).map
          (fun o => { o with trace := evs ++ o.trace })

/-- `Acquire(cfg)`: `if cfg != nil { config = *cfg }` and then the body runs
against the package-level `config`.  The model takes the current value `g` of
that global and returns its new value alongside the run. -/
def Acquire (cfgOpt : Option Configuration) (g : Configuration) (env : Env)
    (fs : List String) (fuel : Nat) : Configuration × Option Outcome :=
  let config := match cfgOpt with | some c => c | none => g
  (config, AcquireRun config env fs fuel)

/-- The path `create()` builds for the k-th lock attempt once the uuid service
answered `u`. -/
def lockPathOf (cfg : Configuration) (env : Env) (k : Nat) (u : String) : String :=
  createEntryPath cfg.Dir cfg.Name lockFileType env.node u (env.lockEpochs k)

/-! ## Concrete fixtures for evaluating the protocol -/

/-- A small configuration: directory `d`, lock name `a`, 1s poll, 5s budget. -/
def testConfig : Configuration := { Dir := "d", Name := "a", PollInterval := 1, MaxWait := 5 }

/-- A benign environment: every service answers, nothing fails, the deadline
never fires. -/
def envNoTimeout : Env :=
  { node := "n", reqUuid := .ok "r-r", reqEpoch := 1,
    lockUuids := fun _ => .ok "l-l", lockEpochs := fun k => (10 + k : Int),
    mkdirErr := none, reqWriteErr := none, lockWriteErrs := fun _ => none,
    timeouts := fun _ => false, removeErr := none }

/-- Like `envNoTimeout`, but the third `isTimeOut()` call (index 2) and all
later ones report that the deadline elapsed. -/
def envTimeoutAt2 : Env :=
  { envNoTimeout with timeouts := fun t => decide (2 ≤ t) }

/-- Like `envNoTimeout`, but the second `isTimeOut()` call reports the deadline
elapsed and `req.Remove()` fails with a permission error. -/
def envRemoveFails : Env :=
  { envNoTimeout with
    timeouts := fun t => decide (1 ≤ t), removeErr := some "permission denied" }

/-- Like `envNoTimeout`, but `req.Remove()` fails with a busy error. -/
def envRemoveBusy : Env :=
  { envNoTimeout with removeErr := some "busy" }

/-! ## Theorems -/

/-- Claim C1: `IsOldest(e)` should return true iff no other same-name-or-node
entry has a strictly smaller `created`.  The code refutes this: with two
pending requests for the same name `a`, encoded epochs 1 and 2, `IsOldest` is
false for the strictly older request (and for the younger one too).  `match`
excludes the entry itself, so the front of the sorted match set can never carry
the entry's own path: any same-name or same-node peer forces false regardless
of every `created` value. -/
theorem isOldest_denies_older_same_name_request :
    entry.IsOldest ⟨"d/a__n1__i1__1.request"⟩
        ["d/a__n1__i1__1.request", "d/a__n2__i2__2.request"] = false ∧
    entry.IsOldest ⟨"d/a__n2__i2__2.request"⟩
        ["d/a__n1__i1__1.request", "d/a__n2__i2__2.request"] = false ∧
    matchEntries
        (withFiletype (entriesOf ["d/a__n1__i1__1.request", "d/a__n2__i2__2.request"])
          ".request")
        ⟨"d/a__n1__i1__1.request"⟩ = [⟨"d/a__n2__i2__2.request"⟩] := by
  decide

/-- Claim C3: decoding the path produced by encoding `(name, node, id, created,
kind)` should reproduce all fields.  Name, node, dash-stripped id and the kind
do round-trip, but `created()` comes back 0 instead of 5: `fields()` prepends a
dot to `filetype()`, which already starts with one, so the pattern `..request`
never matches, the extension stays glued to the timestamp field, and the
ignored `Atoi` error leaves value 0. -/
theorem roundtrip_loses_created :
    createEntryPath "d" "a" ".request" "node" "ii-dd" 5 = "d/a__node__iidd__5.request" ∧
    entry.name ⟨"d/a__node__iidd__5.request"⟩ = "a" ∧
    entry.node ⟨"d/a__node__iidd__5.request"⟩ = "node" ∧
    entry.ID ⟨"d/a__node__iidd__5.request"⟩ = "iidd" ∧
    entry.filetype ⟨"d/a__node__iidd__5.request"⟩ = ".request" ∧
    entry.fields ⟨"d/a__node__iidd__5.request"⟩ = ["a", "node", "iidd", "5.request"] ∧
    entry.created ⟨"d/a__node__iidd__5.request"⟩ = 0 ∧
    entry.created ⟨"d/a__node__iidd__5.request"⟩ ≠ 5 := by
  decide

/-- Claim C4: when the shared deadline elapses while retrying lock creation,
`Acquire` should return a timeout error and remove its own request entry.  The
code instead falls out of the `for !isTimeOut()` loop into `return lck, nil`:
with one pre-existing lock, two attempts hit `ExistsErr`, the third deadline
check fires, and the run ends with a nil entry AND a nil error while the
request file `d/a__n__rr__1.request` is still in the directory. -/
theorem lock_phase_timeout_returns_nil_nil :
    AcquireRun testConfig envTimeoutAt2 ["d/x__m__q__3.lock"] 10 =
      some { lck := none, err := none,
             fs := ["d/x__m__q__3.lock", "d/a__n__rr__1.request"],
             trace := [.attempted 0, .attempted 1] } ∧
    "d/a__n__rr__1.request" ∈ ["d/x__m__q__3.lock", "d/a__n__rr__1.request"] := by
  decide

/-- Claim C7: on the queue-wait timeout path with a failing `req.Remove()`, the
returned message should contain both the timeout and the cleanup failure.  The
code overwrites `msg` instead of appending, so the result is only the cleanup
text " (also failed to remove request ...)" and the phrase "Timed out" is
gone. -/
theorem wait_timeout_message_drops_primary :
    AcquireRun testConfig envRemoveFails ["d/a__other__z__0.request"] 10 =
      some { lck := none,
             err := some (.Errorf
               " (also failed to remove request d/a__n__rr__1.request: permission denied - please remove manually)"),
             fs := ["d/a__other__z__0.request", "d/a__n__rr__1.request"],
             trace := [.slept 1] } ∧
    containsStr
      " (also failed to remove request d/a__n__rr__1.request: permission denied - please remove manually)"
      "Timed out" = false := by
  decide

/-- Claim C8: after observing 1 or 2 existing locks the protocol should sleep
`pollInterval` before the next attempt.  In `Acquire`'s lock phase there is no
`time.Sleep`: the trace of a run that sees one pre-existing lock shows two
consecutive creation attempts with no sleep event between them, while the
queue-wait phase of the same model does emit one sleep per retry. -/
theorem lock_retry_has_no_sleep :
    (AcquireRun testConfig envTimeoutAt2 ["d/x__m__q__3.lock"] 10).map Outcome.trace =
      some [.attempted 0, .attempted 1] ∧
    (AcquireRun testConfig envRemoveFails ["d/a__other__z__0.request"] 10).map Outcome.trace =
      some [.slept 1] := by
  decide

/-- Claim C2: the claim's third tier says more than 2 lock entries make the
acquire fail immediately, without retrying.  The code refutes it: `create()`
does return a `TooManyLocksErr` for three locks, but `ExistsErr` is an
interface type matching every non-nil error in the type switch, so that error
lands in the retry arm like any other; with three pre-existing locks the run
keeps attempting (trace `[attempted 0, attempted 1]`) until the shared
deadline fires and then ends with a nil entry AND a nil error, never surfacing
the consistency violation and leaving its request file behind. -/
theorem too_many_locks_retries_until_deadline :
    create testConfig envTimeoutAt2 0
        ["d/x__m__q__3.lock", "d/y__m__q__4.lock", "d/z__m__q__5.lock"] =
      .error (.TooManyLocksErr "3 locks found, expect <= 2") ∧
    AcquireRun testConfig envTimeoutAt2
        ["d/x__m__q__3.lock", "d/y__m__q__4.lock", "d/z__m__q__5.lock"] 10 =
      some { lck := none, err := none,
             fs := ["d/x__m__q__3.lock", "d/y__m__q__4.lock", "d/z__m__q__5.lock",
                    "d/a__n__rr__1.request"],
             trace := [.attempted 0, .attempted 1] } :=
  ⟨rfl, by decide⟩

/-- Claim C5, counterexample: the claim asserts the `__` separator never occurs
inside the name field, but slash-replacement does not remove pre-existing
underscores.  For the caller-supplied name `a__b` the normalized name still
contains `__`, and decoding the resulting file misparses the name field as
`a`. -/
theorem separator_survives_in_name :
    createEntryPath "d" "a__b" ".request" "n" "i-j" 5 = "d/a__b__n__ij__5.request" ∧
    goReplace "a__b" "/" "_" = "a__b" ∧
    containsStr (goReplace "a__b" "/" "_") "__" = true ∧
    entry.name ⟨"d/a__b__n__ij__5.request"⟩ = "a" := by
  decide

/-- Removing every dash introduces no character that was not already present:
in particular no underscore. -/
theorem goReplaceAux_dash_no_underscore :
    ∀ (fuel : Nat) (s : List Char), '_' ∉ s → '_' ∉ goReplaceAux ['-'] [] fuel s := by
  intro fuel
  induction fuel with
  | zero => intro s h; simpa [goReplaceAux] using h
  | succ n ih =>
    intro s h
    cases s with
    | nil => simp [goReplaceAux]
    | cons c rest =>
      rw [List.mem_cons, not_or] at h
      cases hb : List.isPrefixOf ['-'] (c :: rest) with
      | true =>
        simp only [goReplaceAux, hb, if_true, List.nil_append, List.length_cons]
        exact ih _ h.2
      | false =>
        simp only [goReplaceAux, hb, Bool.false_eq_true, if_false, List.mem_cons, not_or]
        exact ⟨h.1, ih _ h.2⟩

/-- A string without a single underscore cannot contain the substring `__`. -/
theorem containsAux_double_underscore :
    ∀ l : List Char, '_' ∉ l → containsAux ['_', '_'] l = false := by
  intro l
  induction l with
  | nil => intro _; rfl
  | cons c rest ih =>
    intro h
    rw [List.mem_cons, not_or] at h
    have hc : ('_' == c) = false := by
      cases e : ('_' == c)
      · rfl
      · exact absurd (eq_of_beq e) h.1
    simp [containsAux, List.isPrefixOf, hc, ih h.2]

/-- Claim C5, amended: the file name has exactly the form
`name__node__id__createdEpoch` plus extension, with slashes in the
caller-supplied name replaced by underscores and dashes stripped from the id,
the extensions being `.request` and `.lock`; the separator is guaranteed absent
from the id field whenever the raw id contains no underscore (true of uuidgen
output), while for the name and node fields no such guarantee exists. -/
theorem fileName_shape (dir name ft node uuid : String) (epoch : Int)
    (hu : '_' ∉ uuid.data) :
    createEntryPath dir name ft node uuid epoch =
      filepathJoin dir (goReplace name "/" "_" ++ "__" ++ node ++ "__" ++
        goReplace uuid "-" "" ++ "__" ++ toString epoch ++ ft) ∧
    requestFileType = ".request" ∧ lockFileType = ".lock" ∧
    containsStr (goReplace uuid "-" "") "__" = false := by
  refine ⟨rfl, rfl, rfl, ?_⟩
  show containsAux "__".data (goReplaceAux ['-'] [] uuid.data.length uuid.data) = false
  exact containsAux_double_underscore _ (goReplaceAux_dash_no_underscore _ _ hu)

/-- Witness for `fileName_shape` on a dashed, slash-containing input. -/
theorem fileName_shape_witness :
    createEntryPath "d" "x/y" ".lock" "n" "ab-cd" 7 = "d/x_y__n__abcd__7.lock" ∧
    containsStr (goReplace "ab-cd" "-" "") "__" = false := by
  have h := fileName_shape "d" "x/y" ".lock" "n" "ab-cd" 7 (by decide)
  exact ⟨h.1.trans (by decide), h.2.2.2⟩

/-- Claim C6: two pending request entries with different names, different nodes
and different paths never block each other — over the snapshot holding exactly
the two of them, `IsOldest` is true for both simultaneously, because `match`
finds no name/node-colliding peer for either. -/
theorem domain_isolation (e1 e2 : entry)
    (hp : e1.path ≠ e2.path)
    (hn : e1.name ≠ e2.name) (hd : e1.node ≠ e2.node)
    (hf1 : e1.filetype = requestFileType) (hf2 : e2.filetype = requestFileType) :
    e1.IsOldest [e1.path, e2.path] = true ∧ e2.IsOldest [e1.path, e2.path] = true := by
  constructor
  · simp [entry.IsOldest, entriesOf, withFiletype, matchEntries,
      entry.hasName, entry.hasNode, hf1, hf2, hp, Ne.symm hp, hn, Ne.symm hn, hd, Ne.symm hd]
  · simp [entry.IsOldest, entriesOf, withFiletype, matchEntries,
      entry.hasName, entry.hasNode, hf1, hf2, hp, Ne.symm hp, hn, Ne.symm hn, hd, Ne.symm hd]

/-- Witness for `domain_isolation`: requests for lock names `a` and `b` from
nodes `n1` and `n2` are both oldest at once. -/
theorem domain_isolation_witness :
    entry.IsOldest ⟨"d/a__n1__i1__1.request"⟩
        ["d/a__n1__i1__1.request", "d/b__n2__i2__2.request"] = true ∧
    entry.IsOldest ⟨"d/b__n2__i2__2.request"⟩
        ["d/a__n1__i1__1.request", "d/b__n2__i2__2.request"] = true := by
  exact domain_isolation ⟨"d/a__n1__i1__1.request"⟩ ⟨"d/b__n2__i2__2.request"⟩
    (by decide) (by decide) (by decide) (by decide) (by decide)

/-- Claim C9: when the lock file is written but the removal of the caller's own
request fails, the run returns BOTH a non-nil lock entry and a non-nil error,
the lock file is present in the final directory listing, and the stale request
file remains as well. -/
theorem acquired_lock_reported_with_cleanup_error
    (cfg : Configuration) (req : entry) (env : Env) (fuel t k : Nat)
    (lck : Option entry) (fs : List String) (u r : String)
    (hto : env.timeouts t = false) (hu : env.lockUuids k = .ok u)
    (hw : env.lockWriteErrs k = none) (hrm : env.removeErr = some r)
    (h0 : (locks fs).length = 0) (hreq : req.path ∈ fs) :
    lockLoop cfg req env (fuel + 1) t k lck fs =
      some ⟨some ⟨lockPathOf cfg env k u⟩, some (.Errorf r),
        fs ++ [lockPathOf cfg env k u], [.attempted k]⟩ ∧
    lockPathOf cfg env k u ∈ fs ++ [lockPathOf cfg env k u] ∧
    req.path ∈ fs ++ [lockPathOf cfg env k u] := by
  refine ⟨?_, ?_, ?_⟩
  · simp [lockLoop, hto, create, hu, hw, h0, hrm, lockPathOf]
  · simp
  · exact List.mem_append_left _ hreq

/-- Witness for `acquired_lock_reported_with_cleanup_error`: a busy request
file leaves both the lock and the request in the directory while the call
reports the lock together with the error. -/
theorem acquired_lock_reported_with_cleanup_error_witness :
    lockLoop testConfig ⟨"d/a__n__rr__1.request"⟩ envRemoveBusy 1 0 0 none
        ["d/a__n__rr__1.request"] =
      some ⟨some ⟨"d/a__n__ll__10.lock"⟩, some (.Errorf "busy"),
        ["d/a__n__rr__1.request", "d/a__n__ll__10.lock"], [.attempted 0]⟩ ∧
    "d/a__n__ll__10.lock" ∈ ["d/a__n__rr__1.request", "d/a__n__ll__10.lock"] ∧
    "d/a__n__rr__1.request" ∈ ["d/a__n__rr__1.request", "d/a__n__ll__10.lock"] := by
  have h := acquired_lock_reported_with_cleanup_error testConfig ⟨"d/a__n__rr__1.request"⟩
      envRemoveBusy 0 0 0 none ["d/a__n__rr__1.request"] "l-l" "busy" rfl rfl rfl rfl
      (by decide) (by decide)
  exact ⟨h.1.trans (by decide), by decide, by decide⟩

/-- Claim C10: a non-nil configuration argument overwrites the process-wide
`config` (the pair's first component is the new global), the run then executes
under it, a nil argument runs under whatever the global currently holds — so a
nil call after `Acquire (some c)` runs under `c`, not under fresh defaults —
the global starts as `DefaultConfig`, and the helper `createRequest` builds its
path from the installed configuration's `Dir` and `Name`. -/
theorem acquire_overwrites_global_config (c g : Configuration) (d u : String)
    (env other : Env) (fs fs' : List String) (fuel fuel' : Nat)
    (hu : env.reqUuid = .ok u) (hw : env.reqWriteErr = none) :
    (Acquire (some c) g env fs fuel).1 = c ∧
    (Acquire (some c) g env fs fuel).2 = AcquireRun c env fs fuel ∧
    (Acquire none g env fs fuel).2 = AcquireRun g env fs fuel ∧
    Acquire none (Acquire (some c) g env fs fuel).1 other fs' fuel' =
      (c, AcquireRun c other fs' fuel') ∧
    initialConfig d = DefaultConfig d ∧
    createRequest c env fs =
      .ok (⟨createEntryPath c.Dir c.Name requestFileType env.node u env.reqEpoch⟩,
        fs ++ [createEntryPath c.Dir c.Name requestFileType env.node u env.reqEpoch]) := by
  refine ⟨rfl, rfl, rfl, rfl, rfl, ?_⟩
  simp [createRequest, hu, hw]

/-- Witness for `acquire_overwrites_global_config`: installing `testConfig`
makes a following nil call run under it, and `createRequest` uses its `d`/`a`
directory and name. -/
theorem acquire_overwrites_global_config_witness :
    (Acquire (some testConfig) (DefaultConfig "h") envNoTimeout [] 3).1 = testConfig ∧
    Acquire none (Acquire (some testConfig) (DefaultConfig "h") envNoTimeout [] 3).1
        envNoTimeout [] 3 = (testConfig, AcquireRun testConfig envNoTimeout [] 3) ∧
    createRequest testConfig envNoTimeout [] =
      .ok (⟨"d/a__n__rr__1.request"⟩, ["d/a__n__rr__1.request"]) := by
  have h := acquire_overwrites_global_config testConfig (DefaultConfig "h") "h" "r-r"
      envNoTimeout envNoTimeout [] [] 3 3 rfl rfl
  exact ⟨h.1, h.2.2.2.1, h.2.2.2.2.2.trans rfl⟩

end Lock
